import Mathlib

/-!
Verification of the minor-contracts analysis program (Ayuntamiento de Madrid).

The program is a batch report generator over an in-memory tabular dataset of
contract records.  We embed the dataset as a list of records and each
aggregation function of `contratos.py` as a Lean function that mirrors the
pandas pipeline step by step:

  * boolean-mask selection `df[mask]`        -> `List.filter`
  * `Series.count` / `Series.sum`            -> `List.length` / `List.sum`
  * `groupby(key)['IMPORTE'].sum()`          -> `groupbySum` (per-key filter+sum)
  * `sort_values(ascending=False)`           -> `List.insertionSort` with the
                                                descending comparison
                                                `importeDesc` (pandas' default
                                                sort kind is unstable and tie
                                                order is unspecified, so any
                                                sort arranged by this relation
                                                is a faithful model)
  * `[:n]`                                   -> `List.take n`
  * `.iloc[0]` (raises `IndexError` when
    the selection is empty)                  -> `List.head?` (`none` = failure)
  * `unstack()` cell access                  -> `celda` (`none` = NaN / absent)

Lean identifiers do not admit `ñ`, so the source names `año` / `años` are
transliterated as `anio` / `anios`; all other names follow the source.

Amounts (`IMPORTE`) are modelled as integers: the verified claims concern
counts, sums and order comparisons, which are not specific to the numeric
representation.

pandas `groupby` emits group keys in sorted order; we enumerate group keys with
`List.dedup` instead.  Every property verified below is invariant under a
permutation of the group-key enumeration order (descending order of the ranked
output is re-established by the explicit `sort_values` step of the source), so
the choice of enumeration order is unobservable here.
-/

/-- One contract record: one row of the dataset, with the columns `NIF`,
`CONTRATISTA`, `SECCION`, `AÑO` (as `anio`), `IMPORTE`. -/
structure Registro where
  nif : String
  contratista : String
  seccion : String
  anio : Int
  importe : Int
  deriving DecidableEq, Repr

/-- The dataset: an ordered sequence of contract records. -/
abbrev DataFrame := List Registro

/-- The result of a scalar aggregation query: the dictionary
`{'Número de contratos': …, 'Total facturado/gastado': …}` of the source. -/
structure Resultado where
  contratos : Nat
  total : Int
  deriving DecidableEq, Repr

/-- Embedding of `empresa(df, nif)`:
`df[df['NIF']==nif]['CONTRATISTA'].iloc[0]`.
The row selection becomes `filter`, the column projection becomes `map`, and
`iloc[0]` becomes `head?`: `iloc[0]` on an empty selection raises `IndexError`
(a subclass of `LookupError`), which is modelled by `none`. -/
def empresa (df : DataFrame) (nif : String) : Option String :=
  ((df.filter (fun r => r.nif == nif)).map (fun r => r.contratista)).head?

/-- Embedding of `facturacion_empresa_años(df, nif, años)`:
filter `(df['NIF'] == nif) & (df['AÑO'].isin(años))`, then count and sum the
`IMPORTE` column. -/
def facturacion_empresa_anios (df : DataFrame) (nif : String) (anios : List Int) :
    Resultado :=
  let df1 := df.filter (fun r => r.nif == nif && anios.contains r.anio)
  ⟨df1.length, (df1.map (fun r => r.importe)).sum⟩

/-- Embedding of `gasto_seccion_años(df, seccion, años)`:
filter `(df['SECCION'] == seccion) & (df['AÑO'].isin(años))`, then count and
sum the `IMPORTE` column. -/
def gasto_seccion_anios (df : DataFrame) (seccion : String) (anios : List Int) :
    Resultado :=
  let df1 := df.filter (fun r => r.seccion == seccion && anios.contains r.anio)
  ⟨df1.length, (df1.map (fun r => r.importe)).sum⟩

/-- Embedding of `facturacion_empresa_seccion_años(df, nif, seccion, años)`:
filter `(df['NIF'] == nif) & (df['SECCION'] == seccion) & (df['AÑO'].isin(años))`,
then count and sum the `IMPORTE` column. -/
def facturacion_empresa_seccion_anios (df : DataFrame) (nif : String)
    (seccion : String) (anios : List Int) : Resultado :=
  let df1 := df.filter
    (fun r => r.nif == nif && r.seccion == seccion && anios.contains r.anio)
  ⟨df1.length, (df1.map (fun r => r.importe)).sum⟩

/-- Embedding of `groupby(key)['IMPORTE'].sum()`: one entry per distinct key
value, carrying the sum of `IMPORTE` over the rows with that key. -/
def groupbySum {κ : Type} [DecidableEq κ] (df1 : DataFrame) (key : Registro → κ) :
    List (κ × Int) :=
  ((df1.map key).dedup).map
    (fun k => (k, ((df1.filter (fun r => decide (key r = k))).map
      (fun r => r.importe)).sum))

/-- The concrete three-record dataset of the spec scenario:
(A,S1,2018,100), (A,S1,2019,50), (B,S2,2018,200). -/
def ejemplo3 : DataFrame :=
  [⟨"A", "Empresa A", "S1", 2018, 100⟩,
   ⟨"A", "Empresa A", "S1", 2019, 50⟩,
   ⟨"B", "Empresa B", "S2", 2018, 200⟩]

/-- Bridge between the source-level filter (`==` on `NIF`, `isin` on `AÑO`) and
the spec-level predicate (propositional equality and membership). -/
theorem filtro_empresa_anios_eq (X : String) (Y : List Int) (r : Registro) :
    (r.nif == X && Y.contains r.anio) = decide (r.nif = X ∧ r.anio ∈ Y) := by
  by_cases h1 : r.nif = X <;> by_cases h2 : r.anio ∈ Y <;>
    simp [h1, h2, List.contains, List.elem_eq_mem]

/-- C1: `facturacion_empresa_años(df, X, Y)` returns the number of records with
contractor `X` and year in `Y`, together with the sum of their amounts; when no
record matches it returns count 0, sum 0 (and never an error: the function is
total); on the three-record example dataset it returns count 2, sum 150 for
`X = "A"`, `Y = [2018, 2019]`. -/
theorem facturacion_empresa_anios_correcta :
    (∀ (df : DataFrame) (X : String) (Y : List Int),
      (facturacion_empresa_anios df X Y).contratos
          = (df.filter (fun r => decide (r.nif = X ∧ r.anio ∈ Y))).length
      ∧ (facturacion_empresa_anios df X Y).total
          = ((df.filter (fun r => decide (r.nif = X ∧ r.anio ∈ Y))).map
              (fun r => r.importe)).sum
      ∧ ((∀ r ∈ df, ¬(r.nif = X ∧ r.anio ∈ Y)) →
          facturacion_empresa_anios df X Y = ⟨0, 0⟩))
    ∧ facturacion_empresa_anios ejemplo3 "A" [2018, 2019] = ⟨2, 150⟩ := by
  constructor
  · intro df X Y
    have hf : df.filter (fun r => r.nif == X && Y.contains r.anio)
        = df.filter (fun r => decide (r.nif = X ∧ r.anio ∈ Y)) :=
      List.filter_congr (fun r _ => filtro_empresa_anios_eq X Y r)
    refine ⟨?_, ?_, ?_⟩
    · simp only [facturacion_empresa_anios]
      rw [hf]
    · simp only [facturacion_empresa_anios]
      rw [hf]
    · intro hno
      have hempty : df.filter (fun r => r.nif == X && Y.contains r.anio) = [] := by
        rw [hf, List.filter_eq_nil_iff]
        intro r hr
        simpa using hno r hr
      simp only [facturacion_empresa_anios]
      rw [hempty]
      rfl
  · decide

/-- Witness for C1 at concrete inputs: the example-dataset value, and the
no-match hypothesis discharged at the empty year list. -/
theorem facturacion_empresa_anios_correcta_witness :
    facturacion_empresa_anios ejemplo3 "A" [2018, 2019] = ⟨2, 150⟩
    ∧ facturacion_empresa_anios ejemplo3 "A" [] = ⟨0, 0⟩ :=
  ⟨facturacion_empresa_anios_correcta.2,
   (facturacion_empresa_anios_correcta.1 ejemplo3 "A" []).2.2 (by decide)⟩

/-- Bool-level rearrangement of the three-way filter of
`facturacion_empresa_seccion_años` around the two-way filter of
`facturacion_empresa_años`. -/
theorem filtro_tres_via_nif (X S : String) (Y : List Int) (r : Registro) :
    (r.seccion == S && (r.nif == X && Y.contains r.anio))
      = (r.nif == X && r.seccion == S && Y.contains r.anio) := by
  cases r.nif == X <;> cases r.seccion == S <;> cases Y.contains r.anio <;> rfl

/-- Bool-level rearrangement of the three-way filter of
`facturacion_empresa_seccion_años` around the two-way filter of
`gasto_seccion_años`. -/
theorem filtro_tres_via_seccion (X S : String) (Y : List Int) (r : Registro) :
    (r.nif == X && (r.seccion == S && Y.contains r.anio))
      = (r.nif == X && r.seccion == S && Y.contains r.anio) := by
  cases r.nif == X <;> cases r.seccion == S <;> cases Y.contains r.anio <;> rfl

/-- C5: the count of `facturacion_empresa_seccion_años(df, X, S, Y)` is at most
the minimum of the counts of `facturacion_empresa_años(df, X, Y)` and
`gasto_seccion_años(df, S, Y)`: the three-way filter refines each two-way
filter. -/
theorem facturacion_empresa_seccion_anios_cota (df : DataFrame) (X S : String)
    (Y : List Int) :
    (facturacion_empresa_seccion_anios df X S Y).contratos
      ≤ min (facturacion_empresa_anios df X Y).contratos
          (gasto_seccion_anios df S Y).contratos := by
  have h1 : (facturacion_empresa_seccion_anios df X S Y).contratos
      ≤ (facturacion_empresa_anios df X Y).contratos := by
    simp only [facturacion_empresa_seccion_anios, facturacion_empresa_anios]
    have hsplit : df.filter (fun r => r.nif == X && r.seccion == S && Y.contains r.anio)
        = (df.filter (fun r => r.nif == X && Y.contains r.anio)).filter
            (fun r => r.seccion == S) := by
      rw [List.filter_filter]
      exact (List.filter_congr (fun r _ => filtro_tres_via_nif X S Y r)).symm
    rw [hsplit]
    exact List.length_filter_le _ _
  have h2 : (facturacion_empresa_seccion_anios df X S Y).contratos
      ≤ (gasto_seccion_anios df S Y).contratos := by
    simp only [facturacion_empresa_seccion_anios, gasto_seccion_anios]
    have hsplit : df.filter (fun r => r.nif == X && r.seccion == S && Y.contains r.anio)
        = (df.filter (fun r => r.seccion == S && Y.contains r.anio)).filter
            (fun r => r.nif == X) := by
      rw [List.filter_filter]
      exact (List.filter_congr (fun r _ => filtro_tres_via_seccion X S Y r)).symm
    rw [hsplit]
    exact List.length_filter_le _ _
  exact le_min h1 h2

/-- C6: `empresa(df, nif)` fails (models the `IndexError`/`LookupError` raised
by `iloc[0]` on the empty selection) exactly when no record of `df` carries the
identifier, and otherwise returns the display name of the first matching
record. -/
theorem empresa_correcta (df : DataFrame) (nif : String) :
    ((∀ r ∈ df, r.nif ≠ nif) → empresa df nif = none)
    ∧ (∀ r0 : Registro, df.find? (fun r => r.nif == nif) = some r0 →
        empresa df nif = some r0.contratista) := by
  constructor
  · intro hno
    have hempty : df.filter (fun r => r.nif == nif) = [] := by
      rw [List.filter_eq_nil_iff]
      intro r hr
      simpa using hno r hr
    simp [empresa, hempty]
  · intro r0 hfind
    simp only [empresa]
    rw [List.head?_map, List.filter_head?, hfind]
    rfl

/-- Witness for C6 at concrete inputs: an absent identifier fails, a present
one returns the first matching record's name. -/
theorem empresa_correcta_witness :
    empresa ejemplo3 "Z" = none ∧ empresa ejemplo3 "A" = some "Empresa A" :=
  ⟨(empresa_correcta ejemplo3 "Z").1 (by decide),
   (empresa_correcta ejemplo3 "A").2 ⟨"A", "Empresa A", "S1", 2018, 100⟩ (by decide)⟩

/-- C10: the three scalar aggregators consume the years list only through the
membership test `isin`, so two years lists with the same elements (regardless
of order or duplication) give identical results. -/
theorem aggregadores_solo_pertenencia (df : DataFrame) (X S : String)
    (Y1 Y2 : List Int) (h : ∀ a : Int, a ∈ Y1 ↔ a ∈ Y2) :
    facturacion_empresa_anios df X Y1 = facturacion_empresa_anios df X Y2
    ∧ gasto_seccion_anios df S Y1 = gasto_seccion_anios df S Y2
    ∧ facturacion_empresa_seccion_anios df X S Y1
        = facturacion_empresa_seccion_anios df X S Y2 := by
  have hc : ∀ a : Int, Y1.contains a = Y2.contains a := by
    intro a
    have ha := h a
    by_cases h1 : a ∈ Y1 <;> simp_all [List.contains, List.elem_eq_mem]
  refine ⟨?_, ?_, ?_⟩
  · simp only [facturacion_empresa_anios]
    rw [List.filter_congr (l := df)
      (fun r _ => congrArg (fun b => r.nif == X && b) (hc r.anio))]
  · simp only [gasto_seccion_anios]
    rw [List.filter_congr (l := df)
      (fun r _ => congrArg (fun b => r.seccion == S && b) (hc r.anio))]
  · simp only [facturacion_empresa_seccion_anios]
    rw [List.filter_congr (l := df)
      (fun r _ => congrArg (fun b => r.nif == X && r.seccion == S && b) (hc r.anio))]

/-- Witness for C10 at concrete inputs: a years list with a duplicate and the
same list reversed without it give the same three results on the example
dataset. -/
theorem aggregadores_solo_pertenencia_witness :
    facturacion_empresa_anios ejemplo3 "A" [2018, 2019, 2018]
      = facturacion_empresa_anios ejemplo3 "A" [2019, 2018]
    ∧ gasto_seccion_anios ejemplo3 "S1" [2018, 2019, 2018]
      = gasto_seccion_anios ejemplo3 "S1" [2019, 2018]
    ∧ facturacion_empresa_seccion_anios ejemplo3 "A" "S1" [2018, 2019, 2018]
      = facturacion_empresa_seccion_anios ejemplo3 "A" "S1" [2019, 2018] :=
  aggregadores_solo_pertenencia ejemplo3 "A" "S1" [2018, 2019, 2018] [2019, 2018]
    (by intro a; simp only [List.mem_cons, List.not_mem_nil, or_false]; tauto)

/-- Summing the per-key filtered sums over a duplicate-free list of keys that
covers every row gives the total sum: the grouping is a partition. -/
theorem sum_filter_keys {κ : Type} [DecidableEq κ] (key : Registro → κ) :
    ∀ keys : List κ, keys.Nodup → ∀ l : DataFrame, (∀ r ∈ l, key r ∈ keys) →
      (keys.map (fun k => ((l.filter (fun r => decide (key r = k))).map
          (fun r => r.importe)).sum)).sum
        = (l.map (fun r => r.importe)).sum := by
  intro keys
  induction keys with
  | nil =>
    intro _ l hcov
    cases l with
    | nil => rfl
    | cons a t => exact absurd (hcov a (List.mem_cons_self a t)) (List.not_mem_nil _)
  | cons k ks ih =>
    intro hnd l hcov
    have hk_not : k ∉ ks := (List.nodup_cons.mp hnd).1
    have hnd' : ks.Nodup := (List.nodup_cons.mp hnd).2
    have hrest : ∀ k0 ∈ ks,
        l.filter (fun r => decide (key r = k0))
          = (l.filter (fun r => decide ¬(key r = k))).filter
              (fun r => decide (key r = k0)) := by
      intro k0 hk0
      rw [List.filter_filter]
      refine (List.filter_congr ?_).symm
      intro r _
      by_cases h : key r = k0
      · have hne0 : ¬ k0 = k := fun hc => hk_not (hc ▸ hk0)
        simp [h, hne0]
      · simp [h]
    have hmap : ks.map (fun k0 => ((l.filter (fun r => decide (key r = k0))).map
          (fun r => r.importe)).sum)
        = ks.map (fun k0 =>
            (((l.filter (fun r => decide ¬(key r = k))).filter
              (fun r => decide (key r = k0))).map (fun r => r.importe)).sum) :=
      List.map_congr_left (fun k0 hk0 => by rw [hrest k0 hk0])
    have hcov' : ∀ r ∈ l.filter (fun r => decide ¬(key r = k)), key r ∈ ks := by
      intro r hr
      have hmem := List.mem_of_mem_filter hr
      have hprop := List.of_mem_filter hr
      have hne : ¬ key r = k := by simpa using hprop
      have := hcov r hmem
      cases List.mem_cons.mp this with
      | inl h => exact absurd h hne
      | inr h => exact h
    calc (((k :: ks)).map (fun k0 => ((l.filter (fun r => decide (key r = k0))).map
            (fun r => r.importe)).sum)).sum
        = ((l.filter (fun r => decide (key r = k))).map (fun r => r.importe)).sum
            + (ks.map (fun k0 => ((l.filter (fun r => decide (key r = k0))).map
                (fun r => r.importe)).sum)).sum := by
          rw [List.map_cons, List.sum_cons]
      _ = ((l.filter (fun r => decide (key r = k))).map (fun r => r.importe)).sum
            + ((l.filter (fun r => decide ¬(key r = k))).map (fun r => r.importe)).sum := by
          rw [hmap, ih hnd' (l.filter (fun r => decide ¬(key r = k))) hcov']
      _ = (l.map (fun r => r.importe)).sum :=
          List.sum_map_filter_add_sum_map_filter_not (fun r => key r = k)
            (fun r => r.importe) l

/-- The sum of the per-group sums of `groupbySum` equals the sum over the
ungrouped input. -/
theorem groupbySum_total {κ : Type} [DecidableEq κ] (l : DataFrame)
    (key : Registro → κ) :
    ((groupbySum l key).map (fun p => p.2)).sum = (l.map (fun r => r.importe)).sum := by
  unfold groupbySum
  rw [List.map_map]
  exact sum_filter_keys key ((l.map key).dedup) (List.nodup_dedup _) l
    (fun r hr => List.mem_dedup.mpr (List.mem_map_of_mem key hr))

/-- C4: the groupings used by the rankings are total, non-lossy partitions of
the filtered record set: for the contractor grouping of
`empresas_mayor_facturacion` (year-set filter) and the (year, section) grouping
of `evolucion_facturacion_secciones` (year-range filter), the sum of the
per-group sums equals the sum over the ungrouped filtered set. -/
theorem agrupacion_sin_perdida (df : DataFrame) (anios : List Int)
    (inicio fin : Int) :
    (((groupbySum (df.filter (fun r => anios.contains r.anio))
          (fun r => r.nif)).map (fun p => p.2)).sum
        = ((df.filter (fun r => anios.contains r.anio)).map
            (fun r => r.importe)).sum)
    ∧ (((groupbySum (df.filter (fun r => decide (inicio ≤ r.anio) && decide (r.anio ≤ fin)))
          (fun r => (r.anio, r.seccion))).map (fun p => p.2)).sum
        = ((df.filter (fun r => decide (inicio ≤ r.anio) && decide (r.anio ≤ fin))).map
            (fun r => r.importe)).sum) :=
  ⟨groupbySum_total _ _, groupbySum_total _ _⟩

/-- The descending comparison used by `sort_values(ascending=False)` on a
grouped series: larger summed amounts come first.  pandas' default sort is
unstable and the spec leaves tie order unspecified, so any sort that is a
permutation arranged by this relation is a faithful model. -/
def importeDesc {κ : Type} (a b : κ × Int) : Prop := b.2 ≤ a.2

instance {κ : Type} : DecidableRel (@importeDesc κ) :=
  fun a b => Int.decLe b.2 a.2

instance {κ : Type} : IsTotal (κ × Int) importeDesc :=
  ⟨fun a b => le_total b.2 a.2⟩

instance {κ : Type} : IsTrans (κ × Int) importeDesc :=
  ⟨fun _ _ _ hab hbc => le_trans hbc hab⟩

/-- The number of groups equals the number of distinct keys. -/
theorem groupbySum_length {κ : Type} [DecidableEq κ] (l : DataFrame)
    (key : Registro → κ) :
    (groupbySum l key).length = (l.map key).dedup.length := by
  unfold groupbySum
  rw [List.length_map]

/-- Every group entry carries its key's filtered sum, and its key occurs in
the input. -/
theorem groupbySum_shape {κ : Type} [DecidableEq κ] {l : DataFrame}
    {key : Registro → κ} {p : κ × Int} (hp : p ∈ groupbySum l key) :
    p.2 = ((l.filter (fun r => decide (key r = p.1))).map (fun r => r.importe)).sum
    ∧ p.1 ∈ l.map key := by
  unfold groupbySum at hp
  obtain ⟨k, hk, rfl⟩ := List.mem_map.mp hp
  exact ⟨rfl, List.mem_dedup.mp hk⟩

/-- Every key occurring in the input yields a group entry with its filtered
sum. -/
theorem groupbySum_mem_of_key {κ : Type} [DecidableEq κ] {l : DataFrame}
    {key : Registro → κ} {k : κ} (hk : k ∈ l.map key) :
    (k, ((l.filter (fun r => decide (key r = k))).map (fun r => r.importe)).sum)
      ∈ groupbySum l key := by
  unfold groupbySum
  exact List.mem_map_of_mem _ (List.mem_dedup.mpr hk)

/-- Embedding of the ranking pipeline of `empresas_mayor_facturacion(df, años, n)`
before the presentation steps: filter the rows to the year set, group by `NIF`
summing `IMPORTE`, sort descending by summed amount, take the first `n`. -/
def empresas_mayor_facturacion (df : DataFrame) (anios : List Int)
    (n : Nat := 10) : List (String × Int) :=
  let df1 := df.filter (fun r => anios.contains r.anio)
  let df2 := groupbySum df1 (fun r => r.nif)
  let df3 := List.insertionSort importeDesc df2
  df3.take n

/-- The table printed and charted by `empresas_mayor_facturacion`: the ranking
with each `NIF` replaced by its display name, the
`rename(lambda x: empresa(df, x))` step of the source.  A `none` models a
lookup failure inside the rename. -/
def empresas_mayor_facturacion_tabla (df : DataFrame) (anios : List Int)
    (n : Nat := 10) : Option (List (String × Int)) :=
  (empresas_mayor_facturacion df anios n).mapM
    (fun p => (empresa df p.1).map (fun nombre => (nombre, p.2)))

/-- C2: the ranking of `empresas_mayor_facturacion` holds the per-contractor
sum groups of the year-filtered records in descending order of summed amount
(for positions i < j, amount i ≥ amount j), has length
min(N, number of distinct contractors of the filtered set), and when at most N
contractors exist every contractor of the filtered set appears in it (no
error for large N; N = 0 gives the empty ranking by the length clause). -/
theorem empresas_mayor_facturacion_correcta (df : DataFrame) (anios : List Int)
    (n : Nat) :
    List.Pairwise (fun a b => a.2 ≥ b.2) (empresas_mayor_facturacion df anios n)
    ∧ (empresas_mayor_facturacion df anios n).length
        = min n ((df.filter (fun r => anios.contains r.anio)).map
            (fun r => r.nif)).toFinset.card
    ∧ (∀ p ∈ empresas_mayor_facturacion df anios n,
        p.2 = (((df.filter (fun r => anios.contains r.anio)).filter
            (fun r => decide (r.nif = p.1))).map (fun r => r.importe)).sum)
    ∧ (((df.filter (fun r => anios.contains r.anio)).map
          (fun r => r.nif)).toFinset.card ≤ n →
        ∀ r ∈ df.filter (fun r => anios.contains r.anio),
          ∃ p ∈ empresas_mayor_facturacion df anios n, p.1 = r.nif) := by
  simp only [empresas_mayor_facturacion]
  refine ⟨?_, ?_, ?_, ?_⟩
  · exact List.Pairwise.sublist (List.take_sublist _ _)
      (List.Pairwise.imp (fun h => h) (List.sorted_insertionSort importeDesc _))
  · rw [List.length_take, List.length_insertionSort, groupbySum_length,
      List.card_toFinset]
  · intro p hp
    have hp2 : p ∈ groupbySum (df.filter (fun r => anios.contains r.anio))
        (fun r => r.nif) :=
      (List.mem_insertionSort importeDesc).mp (List.mem_of_mem_take hp)
    exact (groupbySum_shape hp2).1
  · intro hcard r hr
    have hlen : (List.insertionSort importeDesc
        (groupbySum (df.filter (fun r => anios.contains r.anio))
          (fun r => r.nif))).length ≤ n := by
      rw [List.length_insertionSort, groupbySum_length]
      rw [List.card_toFinset] at hcard
      exact hcard
    rw [List.take_of_length_le hlen]
    have hknif : r.nif ∈ (df.filter (fun r => anios.contains r.anio)).map
        (fun r => r.nif) := List.mem_map_of_mem _ hr
    exact ⟨_, (List.mem_insertionSort importeDesc).mpr (groupbySum_mem_of_key hknif), rfl⟩

/-- Witness for C2 at concrete inputs: descending order on the example ranking,
and (with two distinct contractors and N = 5) every filtered contractor appears. -/
theorem empresas_mayor_facturacion_correcta_witness :
    List.Pairwise (fun a b => a.2 ≥ b.2)
      (empresas_mayor_facturacion ejemplo3 [2018, 2019] 5)
    ∧ (∀ r ∈ ejemplo3.filter (fun r => [(2018 : Int), 2019].contains r.anio),
        ∃ p ∈ empresas_mayor_facturacion ejemplo3 [2018, 2019] 5, p.1 = r.nif) :=
  ⟨(empresas_mayor_facturacion_correcta ejemplo3 [2018, 2019] 5).1,
   (empresas_mayor_facturacion_correcta ejemplo3 [2018, 2019] 5).2.2.2 (by decide)⟩

/-- The top-n contractor identifiers of
`evolucion_empresas_mayor_facturacion`: rank by total amount over the whole
year range `[inicio, fin]`, applied once (the `nifs = df2[:n].index` step). -/
def nifs_seleccionados (df : DataFrame) (inicio fin : Int) (n : Nat := 10) :
    List String :=
  let df1 := df.filter (fun r => decide (inicio ≤ r.anio) && decide (r.anio ≤ fin))
  let df2 := List.insertionSort importeDesc (groupbySum df1 (fun r => r.nif))
  (df2.take n).map (fun p => p.1)

/-- Embedding of `evolucion_empresas_mayor_facturacion(df, inicio, fin, n)` up
to the `unstack()` reshape: filter to the year range, select the top-n
contractors by total over the whole range (once), restrict the filtered rows to
those contractors, group by (year, `NIF`) summing `IMPORTE`.  The chart reads
this grouped series through `unstack()`, i.e. through `celda`. -/
def evolucion_empresas_mayor_facturacion (df : DataFrame) (inicio fin : Int)
    (n : Nat := 10) : List ((Int × String) × Int) :=
  let df1 := df.filter (fun r => decide (inicio ≤ r.anio) && decide (r.anio ≤ fin))
  let nifs := nifs_seleccionados df inicio fin n
  let df3 := df1.filter (fun r => nifs.contains r.nif)
  groupbySum df3 (fun r => (r.anio, r.nif))

/-- Cell access of the `unstack()` pivot at row `a` (year) and column `c`
(contractor / section): the summed amount when the grouped series has an entry
for `(a, c)`, and `none` (the NaN gap of the pivot) otherwise. -/
def celda (tabla : List ((Int × String) × Int)) (a : Int) (c : String) :
    Option Int :=
  (tabla.find? (fun p => decide (p.1 = (a, c)))).map (fun p => p.2)

/-- Display renaming of the grouped evolution series: level-1 `rename` through
`empresa(df, ·)`.  A `none` models a lookup failure inside the rename. -/
def evolucion_empresas_mayor_facturacion_tabla (df : DataFrame)
    (inicio fin : Int) (n : Nat := 10) : Option (List ((Int × String) × Int)) :=
  (evolucion_empresas_mayor_facturacion df inicio fin n).mapM
    (fun p => (empresa df p.1.2).map (fun nombre => ((p.1.1, nombre), p.2)))

/-- Embedding of `evolucion_facturacion_secciones(df, inicio, fin)` up to the
`unstack()` reshape: filter to the year range, group by (year, `SECCION`)
summing `IMPORTE`. -/
def evolucion_facturacion_secciones (df : DataFrame) (inicio fin : Int) :
    List ((Int × String) × Int) :=
  let df1 := df.filter (fun r => decide (inicio ≤ r.anio) && decide (r.anio ≤ fin))
  groupbySum df1 (fun r => (r.anio, r.seccion))

/-- Searching a list for a given key with `find?` returns that key exactly
when it is present. -/
theorem find?_eq_self {κ : Type} [DecidableEq κ] (l : List κ) (k : κ) :
    l.find? (fun x => decide (x = k)) = if k ∈ l then some k else none := by
  induction l with
  | nil => simp
  | cons a t ih =>
    by_cases h : a = k
    · subst h
      rw [List.find?_cons_of_pos _ (by simp)]
      simp
    · rw [List.find?_cons_of_neg _ (by simpa using h), ih]
      by_cases hk : k ∈ t
      · have hm : k ∈ a :: t := List.mem_cons_of_mem _ hk
        simp [hk, hm]
      · have hm : k ∉ a :: t := by
          rw [List.mem_cons]
          rintro (rfl | hc)
          · exact h rfl
          · exact hk hc
        simp [hk, hm]

/-- Looking a key up in a grouped series: a present key finds its group entry
(the filtered sum), an absent key finds nothing. -/
theorem groupbySum_find {κ : Type} [DecidableEq κ] (l : DataFrame)
    (key : Registro → κ) (k : κ) :
    ((groupbySum l key).find? (fun p => decide (p.1 = k))).map (fun p => p.2)
      = if k ∈ l.map key
        then some (((l.filter (fun r => decide (key r = k))).map
            (fun r => r.importe)).sum)
        else none := by
  unfold groupbySum
  rw [List.find?_map]
  have hpred : ((fun p : κ × Int => decide (p.1 = k)) ∘
      (fun k0 => (k0, ((l.filter (fun r => decide (key r = k0))).map
        (fun r => r.importe)).sum)))
      = (fun k0 : κ => decide (k0 = k)) := rfl
  rw [hpred, find?_eq_self]
  by_cases hmem : k ∈ l.map key
  · rw [if_pos (List.mem_dedup.mpr hmem), if_pos hmem]
    rfl
  · rw [if_neg (fun hc => hmem (List.mem_dedup.mp hc)), if_neg hmem]
    rfl

/-- C3: `evolucion_empresas_mayor_facturacion` ranks contractors once, by
total amount over the whole range: it selects min(N, number of contractors
active in the range) identifiers, each active in the range, whose range totals
dominate the range total of every unselected active contractor; and for each
selected contractor and each year of the range, the reshaped table's cell
holds that contractor's summed amount for that year when at least one matching
record exists, and is absent (a gap, not zero) when none does. -/
theorem evolucion_empresas_mayor_facturacion_correcta (df : DataFrame)
    (inicio fin : Int) (n : Nat) :
    (nifs_seleccionados df inicio fin n).length
        = min n (((df.filter (fun r => decide (inicio ≤ r.anio)
            && decide (r.anio ≤ fin))).map (fun r => r.nif)).toFinset.card)
    ∧ (∀ c ∈ nifs_seleccionados df inicio fin n,
        c ∈ (df.filter (fun r => decide (inicio ≤ r.anio)
            && decide (r.anio ≤ fin))).map (fun r => r.nif))
    ∧ (∀ c ∈ nifs_seleccionados df inicio fin n,
        ∀ c' ∈ (df.filter (fun r => decide (inicio ≤ r.anio)
            && decide (r.anio ≤ fin))).map (fun r => r.nif),
          c' ∉ nifs_seleccionados df inicio fin n →
          (((df.filter (fun r => decide (inicio ≤ r.anio)
              && decide (r.anio ≤ fin))).filter
              (fun r => decide (r.nif = c'))).map (fun r => r.importe)).sum
            ≤ (((df.filter (fun r => decide (inicio ≤ r.anio)
              && decide (r.anio ≤ fin))).filter
              (fun r => decide (r.nif = c))).map (fun r => r.importe)).sum)
    ∧ (∀ c ∈ nifs_seleccionados df inicio fin n, ∀ a : Int,
        inicio ≤ a → a ≤ fin →
        ((∃ r ∈ df, r.nif = c ∧ r.anio = a) →
          celda (evolucion_empresas_mayor_facturacion df inicio fin n) a c
            = some (((df.filter (fun r => decide (r.nif = c ∧ r.anio = a))).map
                (fun r => r.importe)).sum))
        ∧ ((¬ ∃ r ∈ df, r.nif = c ∧ r.anio = a) →
          celda (evolucion_empresas_mayor_facturacion df inicio fin n) a c
            = none)) := by
  refine ⟨?_, ?_, ?_, ?_⟩
  · simp only [nifs_seleccionados]
    rw [List.length_map, List.length_take, List.length_insertionSort,
      groupbySum_length, List.card_toFinset]
  · intro c hc
    simp only [nifs_seleccionados] at hc
    obtain ⟨p, hp, rfl⟩ := List.mem_map.mp hc
    have hpg : p ∈ groupbySum (df.filter (fun r => decide (inicio ≤ r.anio)
        && decide (r.anio ≤ fin))) (fun r => r.nif) :=
      (List.mem_insertionSort importeDesc).mp (List.mem_of_mem_take hp)
    exact (groupbySum_shape hpg).2
  · intro c hc c' hc' hnot
    simp only [nifs_seleccionados] at hc hnot
    obtain ⟨p, hp, rfl⟩ := List.mem_map.mp hc
    have hpg : p ∈ groupbySum (df.filter (fun r => decide (inicio ≤ r.anio)
        && decide (r.anio ≤ fin))) (fun r => r.nif) :=
      (List.mem_insertionSort importeDesc).mp (List.mem_of_mem_take hp)
    have hpshape := (groupbySum_shape hpg).1
    have he'g : (c', (((df.filter (fun r => decide (inicio ≤ r.anio)
        && decide (r.anio ≤ fin))).filter
          (fun r => decide (r.nif = c'))).map (fun r => r.importe)).sum)
        ∈ groupbySum (df.filter (fun r => decide (inicio ≤ r.anio)
            && decide (r.anio ≤ fin))) (fun r => r.nif) :=
      groupbySum_mem_of_key hc'
    have he's : (c', (((df.filter (fun r => decide (inicio ≤ r.anio)
        && decide (r.anio ≤ fin))).filter
          (fun r => decide (r.nif = c'))).map (fun r => r.importe)).sum)
        ∈ List.insertionSort importeDesc
            (groupbySum (df.filter (fun r => decide (inicio ≤ r.anio)
              && decide (r.anio ≤ fin))) (fun r => r.nif)) :=
      (List.mem_insertionSort importeDesc).mpr he'g
    have he'drop : (c', (((df.filter (fun r => decide (inicio ≤ r.anio)
        && decide (r.anio ≤ fin))).filter
          (fun r => decide (r.nif = c'))).map (fun r => r.importe)).sum)
        ∈ (List.insertionSort importeDesc
            (groupbySum (df.filter (fun r => decide (inicio ≤ r.anio)
              && decide (r.anio ≤ fin))) (fun r => r.nif))).drop n := by
      have hin : (c', (((df.filter (fun r => decide (inicio ≤ r.anio)
          && decide (r.anio ≤ fin))).filter
            (fun r => decide (r.nif = c'))).map (fun r => r.importe)).sum)
          ∈ (List.insertionSort importeDesc
              (groupbySum (df.filter (fun r => decide (inicio ≤ r.anio)
                && decide (r.anio ≤ fin))) (fun r => r.nif))).take n
            ++ (List.insertionSort importeDesc
              (groupbySum (df.filter (fun r => decide (inicio ≤ r.anio)
                && decide (r.anio ≤ fin))) (fun r => r.nif))).drop n := by
        rw [List.take_append_drop]
        exact he's
      rcases List.mem_append.mp hin with h | h
      · exact absurd (List.mem_map_of_mem (fun q => q.1) h) hnot
      · exact h
    have hPW : List.Pairwise importeDesc
        ((List.insertionSort importeDesc
            (groupbySum (df.filter (fun r => decide (inicio ≤ r.anio)
              && decide (r.anio ≤ fin))) (fun r => r.nif))).take n
          ++ (List.insertionSort importeDesc
            (groupbySum (df.filter (fun r => decide (inicio ≤ r.anio)
              && decide (r.anio ≤ fin))) (fun r => r.nif))).drop n) := by
      rw [List.take_append_drop]
      exact List.sorted_insertionSort importeDesc _
    have hdom := (List.pairwise_append.mp hPW).2.2 p hp _ he'drop
    rw [← hpshape]
    exact hdom
  · intro c hc a hia haf
    have hfind := groupbySum_find
      ((df.filter (fun r => decide (inicio ≤ r.anio)
          && decide (r.anio ≤ fin))).filter
        (fun r => (nifs_seleccionados df inicio fin n).contains r.nif))
      (fun r => (r.anio, r.nif)) (a, c)
    have hmemiff : ((a, c) ∈ ((df.filter (fun r => decide (inicio ≤ r.anio)
            && decide (r.anio ≤ fin))).filter
            (fun r => (nifs_seleccionados df inicio fin n).contains r.nif)).map
            (fun r => (r.anio, r.nif)))
        ↔ (∃ r ∈ df, r.nif = c ∧ r.anio = a) := by
      constructor
      · intro hm
        obtain ⟨r, hr, heq⟩ := List.mem_map.mp hm
        have h1 : r.anio = a := congrArg Prod.fst heq
        have h2 : r.nif = c := congrArg Prod.snd heq
        exact ⟨r, List.mem_of_mem_filter (List.mem_of_mem_filter hr), h2, h1⟩
      · rintro ⟨r, hr, h2, h1⟩
        have hr1 : r ∈ df.filter (fun r => decide (inicio ≤ r.anio)
            && decide (r.anio ≤ fin)) := by
          rw [List.mem_filter]
          refine ⟨hr, ?_⟩
          rw [h1]
          simp [hia, haf]
        have hr3 : r ∈ (df.filter (fun r => decide (inicio ≤ r.anio)
            && decide (r.anio ≤ fin))).filter
            (fun r => (nifs_seleccionados df inicio fin n).contains r.nif) := by
          rw [List.mem_filter]
          refine ⟨hr1, ?_⟩
          rw [h2]
          simp [List.contains, List.elem_eq_mem, hc]
        exact List.mem_map.mpr ⟨r, hr3, by rw [h1, h2]⟩
    have hsum : (((df.filter (fun r => decide (inicio ≤ r.anio)
          && decide (r.anio ≤ fin))).filter
          (fun r => (nifs_seleccionados df inicio fin n).contains r.nif)).filter
          (fun r => decide ((r.anio, r.nif) = (a, c))))
        = df.filter (fun r => decide (r.nif = c ∧ r.anio = a)) := by
      rw [List.filter_filter, List.filter_filter]
      refine List.filter_congr ?_
      intro r _
      by_cases hq : r.nif = c ∧ r.anio = a
      · obtain ⟨h2, h1⟩ := hq
        simp [h1, h2, hia, haf, hc, List.contains, List.elem_eq_mem]
      · have hpair : ¬((r.anio, r.nif) = (a, c)) := by
          intro hcon
          exact hq ⟨congrArg Prod.snd hcon, congrArg Prod.fst hcon⟩
        simp [hpair, hq]
    constructor
    · intro hex
      have hgoal : ((groupbySum
          ((df.filter (fun r => decide (inicio ≤ r.anio)
              && decide (r.anio ≤ fin))).filter
            (fun r => (nifs_seleccionados df inicio fin n).contains r.nif))
          (fun r => (r.anio, r.nif))).find?
            (fun p => decide (p.1 = (a, c)))).map (fun p => p.2)
          = some (((df.filter (fun r => decide (r.nif = c ∧ r.anio = a))).map
              (fun r => r.importe)).sum) := by
        rw [hfind, if_pos (hmemiff.mpr hex), hsum]
      exact hgoal
    · intro hnex
      have hgoal : ((groupbySum
          ((df.filter (fun r => decide (inicio ≤ r.anio)
              && decide (r.anio ≤ fin))).filter
            (fun r => (nifs_seleccionados df inicio fin n).contains r.nif))
          (fun r => (r.anio, r.nif))).find?
            (fun p => decide (p.1 = (a, c)))).map (fun p => p.2)
          = none := by
        rw [hfind, if_neg (fun hm => hnex (hmemiff.mp hm))]
      exact hgoal

/-- Witness for C3 at concrete inputs: on the example dataset over 2017–2019
with N = 1 the selected contractor is B; its 2018 cell holds 200 and its 2019
cell is absent. -/
theorem evolucion_empresas_mayor_facturacion_correcta_witness :
    celda (evolucion_empresas_mayor_facturacion ejemplo3 2017 2019 1) 2018 "B"
        = some 200
    ∧ celda (evolucion_empresas_mayor_facturacion ejemplo3 2017 2019 1) 2019 "B"
        = none := by
  have h := evolucion_empresas_mayor_facturacion_correcta ejemplo3 2017 2019 1
  have hB : "B" ∈ nifs_seleccionados ejemplo3 2017 2019 1 := by decide
  constructor
  · have hcell := (h.2.2.2 "B" hB 2018 (by decide) (by decide)).1
      ⟨⟨"B", "Empresa B", "S2", 2018, 200⟩, by decide, by decide, by decide⟩
    rw [hcell]
    decide
  · exact (h.2.2.2 "B" hB 2019 (by decide) (by decide)).2 (by decide)

/-- Any identifier that occurs in the dataset resolves through `empresa`. -/
theorem empresa_isSome_of_mem {df : DataFrame} {k : String}
    (hk : k ∈ df.map (fun r => r.nif)) : (empresa df k).isSome := by
  obtain ⟨r, hr, rfl⟩ := List.mem_map.mp hk
  have hrf : r.contratista ∈ (df.filter (fun r0 => r0.nif == r.nif)).map
      (fun r0 => r0.contratista) :=
    List.mem_map_of_mem _ (List.mem_filter.mpr ⟨hr, by simp⟩)
  unfold empresa
  cases hl : (df.filter (fun r0 => r0.nif == r.nif)).map
      (fun r0 => r0.contratista) with
  | nil =>
    rw [hl] at hrf
    exact absurd hrf (List.not_mem_nil _)
  | cons x xs => rfl

/-- `mapM` over `Option` succeeds when every element succeeds. -/
theorem mapM_isSome {α β : Type} (g : α → Option β) :
    ∀ l : List α, (∀ x ∈ l, (g x).isSome) → (l.mapM g).isSome := by
  intro l
  induction l with
  | nil => intro _; rfl
  | cons a t ih =>
    intro h
    obtain ⟨b, hb⟩ := Option.isSome_iff_exists.mp (h a (List.mem_cons_self a t))
    obtain ⟨bs, hbs⟩ := Option.isSome_iff_exists.mp
      (ih (fun x hx => h x (List.mem_cons_of_mem a hx)))
    rw [List.mapM_cons, hb, hbs]
    rfl

/-- C9: every contractor identifier handed to the `rename` presentation step of
`empresas_mayor_facturacion` and `evolucion_empresas_mayor_facturacion` is a
group key drawn from rows of the full dataset `df` itself, so the name lookup
`empresa(df, ·)` — resolved against the full dataset, not the filtered
subset — always succeeds there: the `LookupError` branch of `empresa` is
unreachable from the two ranking functions. -/
theorem renombrado_nunca_falla (df : DataFrame) (anios : List Int)
    (inicio fin : Int) (n m : Nat) :
    (empresas_mayor_facturacion_tabla df anios n).isSome
    ∧ (evolucion_empresas_mayor_facturacion_tabla df inicio fin m).isSome := by
  constructor
  · unfold empresas_mayor_facturacion_tabla
    refine mapM_isSome _ _ ?_
    intro p hp
    simp only [empresas_mayor_facturacion] at hp
    have hpg : p ∈ groupbySum (df.filter (fun r => anios.contains r.anio))
        (fun r => r.nif) :=
      (List.mem_insertionSort importeDesc).mp (List.mem_of_mem_take hp)
    have hknif : p.1 ∈ df.map (fun r => r.nif) := by
      obtain ⟨r, hr, hre⟩ := List.mem_map.mp (groupbySum_shape hpg).2
      exact List.mem_map.mpr ⟨r, List.mem_of_mem_filter hr, hre⟩
    obtain ⟨nm, hnm⟩ := Option.isSome_iff_exists.mp (empresa_isSome_of_mem hknif)
    rw [hnm]
    rfl
  · unfold evolucion_empresas_mayor_facturacion_tabla
    refine mapM_isSome _ _ ?_
    intro p hp
    simp only [evolucion_empresas_mayor_facturacion] at hp
    have hknif : p.1.2 ∈ df.map (fun r => r.nif) := by
      obtain ⟨r, hr, hre⟩ := List.mem_map.mp (groupbySum_shape hp).2
      refine List.mem_map.mpr ⟨r,
        List.mem_of_mem_filter (List.mem_of_mem_filter hr), ?_⟩
      exact congrArg Prod.snd hre
    obtain ⟨nm, hnm⟩ := Option.isSome_iff_exists.mp (empresa_isSome_of_mem hknif)
    rw [hnm]
    rfl

/-- A fragment of the Python object store of `main.py`: the data-frame objects
allocated so far (the address of an object is its position) and the address
the name `df` is currently bound to. -/
structure Memoria where
  objetos : List DataFrame
  df : Nat
  deriving DecidableEq, Repr

/-- Reading the dataset through the name `df`. -/
def leer_df (s : Memoria) : DataFrame := s.objetos.getD s.df []

/-- The year-ascending comparison of the loader's `sort_values(['AÑO'])`. -/
def anioAsc (a b : Registro) : Prop := a.anio ≤ b.anio

instance : DecidableRel anioAsc := fun a b => Int.decLe a.anio b.anio

instance : IsTotal Registro anioAsc := ⟨fun a b => le_total a.anio b.anio⟩

instance : IsTrans Registro anioAsc := ⟨fun _ _ _ => le_trans⟩

/-- The sorted frame produced by `df.sort_values(['AÑO'])`. -/
def sort_values_anio (df : DataFrame) : DataFrame :=
  List.insertionSort anioAsc df

/-- Embedding of the loader's only preprocessing line,
`df = df.sort_values(['AÑO'])` of `main.py`: `sort_values` is called without
`inplace=True`, so it allocates a new, year-sorted frame, and the assignment
rebinds the name `df` to that new object; nothing is written into the
originally loaded object. -/
def preprocesar (s : Memoria) : Memoria :=
  { objetos := s.objetos ++ [sort_values_anio (leer_df s)],
    df := s.objetos.length }

/-- State-passing embedding of `facturacion_empresa_años`: the body only reads
`df` (boolean-mask indexing allocates the fresh local frame `df1`; no
`inplace=True` and no store-back into any existing object occurs in the
source), so the store is returned unchanged. -/
def facturacion_empresa_anios_mem (s : Memoria) (nif : String)
    (anios : List Int) : Resultado × Memoria :=
  (facturacion_empresa_anios (leer_df s) nif anios, s)

/-- State-passing embedding of `gasto_seccion_años`; the body only reads `df`
(see `facturacion_empresa_anios_mem`). -/
def gasto_seccion_anios_mem (s : Memoria) (seccion : String)
    (anios : List Int) : Resultado × Memoria :=
  (gasto_seccion_anios (leer_df s) seccion anios, s)

/-- State-passing embedding of `facturacion_empresa_seccion_años`; the body
only reads `df` (see `facturacion_empresa_anios_mem`). -/
def facturacion_empresa_seccion_anios_mem (s : Memoria) (nif seccion : String)
    (anios : List Int) : Resultado × Memoria :=
  (facturacion_empresa_seccion_anios (leer_df s) nif seccion anios, s)

/-- State-passing embedding of `empresas_mayor_facturacion`: every pipeline
step (mask selection, `groupby`, `sort_values`, slicing, `rename`) returns a
new object bound to the local name `df1`, and nothing is stored back, so the
store is returned unchanged alongside the displayed table. -/
def empresas_mayor_facturacion_mem (s : Memoria) (anios : List Int)
    (n : Nat := 10) : Option (List (String × Int)) × Memoria :=
  (empresas_mayor_facturacion_tabla (leer_df s) anios n, s)

/-- State-passing embedding of `evolucion_empresas_mayor_facturacion`: as with
`empresas_mayor_facturacion_mem`, all steps bind fresh local frames and the
store is returned unchanged alongside the displayed table. -/
def evolucion_empresas_mayor_facturacion_mem (s : Memoria) (inicio fin : Int)
    (n : Nat := 10) : Option (List ((Int × String) × Int)) × Memoria :=
  (evolucion_empresas_mayor_facturacion_tabla (leer_df s) inicio fin n, s)

/-- C7: no aggregation mutates the source dataset: each of the five
state-passing aggregators returns the object store unchanged, and calling it
again with identical arguments on the state it returned yields the identical
result. -/
theorem aggregadores_puros (s : Memoria) (nifX secS : String)
    (anios : List Int) (inicio fin : Int) (n : Nat) :
    ((facturacion_empresa_anios_mem s nifX anios).2 = s
      ∧ (facturacion_empresa_anios_mem
          (facturacion_empresa_anios_mem s nifX anios).2 nifX anios).1
        = (facturacion_empresa_anios_mem s nifX anios).1)
    ∧ ((gasto_seccion_anios_mem s secS anios).2 = s
      ∧ (gasto_seccion_anios_mem
          (gasto_seccion_anios_mem s secS anios).2 secS anios).1
        = (gasto_seccion_anios_mem s secS anios).1)
    ∧ ((facturacion_empresa_seccion_anios_mem s nifX secS anios).2 = s
      ∧ (facturacion_empresa_seccion_anios_mem
          (facturacion_empresa_seccion_anios_mem s nifX secS anios).2
          nifX secS anios).1
        = (facturacion_empresa_seccion_anios_mem s nifX secS anios).1)
    ∧ ((empresas_mayor_facturacion_mem s anios n).2 = s
      ∧ (empresas_mayor_facturacion_mem
          (empresas_mayor_facturacion_mem s anios n).2 anios n).1
        = (empresas_mayor_facturacion_mem s anios n).1)
    ∧ ((evolucion_empresas_mayor_facturacion_mem s inicio fin n).2 = s
      ∧ (evolucion_empresas_mayor_facturacion_mem
          (evolucion_empresas_mayor_facturacion_mem s inicio fin n).2
          inicio fin n).1
        = (evolucion_empresas_mayor_facturacion_mem s inicio fin n).1) :=
  ⟨⟨rfl, rfl⟩, ⟨rfl, rfl⟩, ⟨rfl, rfl⟩, ⟨rfl, rfl⟩, ⟨rfl, rfl⟩⟩

/-- Counterexample to C8 as stated: on a concretely loaded two-record sequence
that is not year-sorted, the preprocessing step leaves the loaded object (at
address 0) bitwise unchanged — in particular still unsorted — and rebinds the
name `df` to a different, newly allocated object; so the step does not sort by
mutating the loaded sequence itself. -/
theorem preprocesar_no_muta_contraejemplo :
    (preprocesar ⟨[[⟨"A", "Empresa A", "S1", 2019, 50⟩,
        ⟨"B", "Empresa B", "S2", 2018, 200⟩]], 0⟩).objetos.getD 0 []
      = [⟨"A", "Empresa A", "S1", 2019, 50⟩, ⟨"B", "Empresa B", "S2", 2018, 200⟩]
    ∧ ¬ List.Pairwise anioAsc
        ((preprocesar ⟨[[⟨"A", "Empresa A", "S1", 2019, 50⟩,
            ⟨"B", "Empresa B", "S2", 2018, 200⟩]], 0⟩).objetos.getD 0 [])
    ∧ (preprocesar ⟨[[⟨"A", "Empresa A", "S1", 2019, 50⟩,
        ⟨"B", "Empresa B", "S2", 2018, 200⟩]], 0⟩).df ≠ 0 := by
  decide

/-- C8 (amended): the loader's only preprocessing step sorts the dataset by
year ascending by producing a derived sorted copy — a year-ascending
permutation of the loaded sequence allocated as a new object — and rebinding
the name `df` to it; every previously allocated object, the loaded sequence
included, is left unchanged. -/
theorem preprocesar_correcto (s : Memoria) :
    (preprocesar s).objetos.take s.objetos.length = s.objetos
    ∧ (preprocesar s).df = s.objetos.length
    ∧ leer_df (preprocesar s) = sort_values_anio (leer_df s)
    ∧ List.Pairwise anioAsc (leer_df (preprocesar s))
    ∧ (leer_df (preprocesar s)).Perm (leer_df s) := by
  have hread : leer_df (preprocesar s) = sort_values_anio (leer_df s) := by
    unfold preprocesar leer_df
    simp only [List.getD_eq_getElem?_getD, List.getElem?_append_right (le_refl _),
      Nat.sub_self, List.getElem?_cons_zero, Option.getD_some]
  refine ⟨?_, rfl, hread, ?_, ?_⟩
  · unfold preprocesar
    exact List.take_left _ _
  · rw [hread]
    exact List.Pairwise.imp (fun h => h)
      (List.sorted_insertionSort anioAsc (leer_df s))
  · rw [hread]
    exact List.perm_insertionSort anioAsc (leer_df s)
